import Mathlib

/-!
Verification of the device-reconciliation core of `homebridge-vieramatic`
(`src/platform.ts` and `src/storage.ts`), as a shallow embedding.

The embedding mirrors the two source files:
- `storage.ts`: the `Storage` class (JSON-document-backed keyed store) is
  modelled by `StorageState` (the in-memory `accessories` record, as an
  association list preserving key enumeration order), `Disk` (the backing
  JSON document), and the operations `Storage.load`, `Storage.get`,
  `Storage.save`.
- `platform.ts`: `deviceSetupPreFlight`, `knownWorking`, `deviceSetup` and
  `discoverDevices` are modelled by functions of the same names.  The
  external device transport (`VieraTV.livenessProbe`, `tv.getSpecs`,
  `tv.deriveSessionKey`, `tv.requestSessionId`, `tv.isTurnedOn`,
  `tv.getApps`) is modelled by an environment record `Env` holding each
  call's result, and every network call performed by a run is recorded in
  an explicit trace (`List NetCall`) so that claims about calls never being
  made are statable.

Helper functions imported by `platform.ts` from modules not part of the
two files (`helpers.ts`: `printf`, `isEmpty`, `isValidMACAddress`;
node's `net.isIPv4`; `JSON.stringify`) are modelled from the spec, each
with a doc comment saying so.
-/

/-- Modelled from the spec: the `Outcome<T>` tagged union of `helpers.ts` —
either a success carrying a value or a failure carrying a human-readable
message (`{ error: Error }` is modelled by the message string). -/
inductive Outcome (α : Type) where
  | error : String → Outcome α
  | value : α → Outcome α
deriving Repr, DecidableEq

/-- Modelled from the spec: `Abnormal(outcome)` of `helpers.ts`, the test
used by the source to branch on a failure outcome. -/
def Abnormal {α : Type} : Outcome α → Bool
  | .error _ => true
  | .value _ => false

/-- Capability snapshot of a device (`VieraSpecs` of `viera.ts`, used by
`platform.ts`).  A JS object that may also be the empty object `{}` is
modelled with one `Option` per field; the empty object is the record with
every field `none`. -/
structure VieraSpecs where
  friendlyName : Option String := none
  modelName : Option String := none
  serialNumber : Option String := none
  requiresEncryption : Option Bool := none
deriving Repr, DecidableEq

/-- The empty specs object `\x7b\x7d`. -/
def emptySpecs : VieraSpecs := {}

/-- Modelled from the spec: `isEmpty` of `helpers.ts` applied to a
`VieraSpecs` value — true exactly when the object has no keys. -/
def isEmptySpecs (s : VieraSpecs) : Bool :=
  s.friendlyName.isNone && s.modelName.isNone &&
    s.serialNumber.isNone && s.requiresEncryption.isNone

/-- JS truthiness of `specs.requiresEncryption` (line 136 / line 146 of
`platform.ts`): `undefined` (field absent, e.g. on the empty object) is
falsy. -/
def specRequiresEncryption (s : VieraSpecs) : Bool :=
  s.requiresEncryption.getD false

/-- User-declared device entry (`UserConfig` of `accessory.ts`, with
exactly the fields `platform.ts` reads: `ipAddress`, `mac`, `appId`,
`encKey`, `friendlyName`, `disabledAppSupport`). -/
structure UserConfig where
  ipAddress : String
  mac : Option String := none
  appId : Option String := none
  encKey : Option String := none
  friendlyName : Option String := none
  disabledAppSupport : Option Bool := none
deriving Repr, DecidableEq

/-- The `data` snapshot of a cache entry: the last observed
`\x7b ipAddress, specs \x7d` pair. -/
structure DiskData where
  ipAddress : String
  specs : VieraSpecs
deriving Repr, DecidableEq

/-- One cache entry (`OnDisk` of `accessory.ts`): the `data` snapshot and
any previously discovered application list.  A freshly materialized entry
(`storage.get` on an unknown key) is the empty object: both fields
`none`. -/
structure OnDisk where
  data : Option DiskData := none
  apps : Option (List String) := none
deriving Repr, DecidableEq

/-- The empty cache entry `\x7b\x7d` stored by `Storage.get` on a missing
key. -/
def emptyOnDisk : OnDisk := {}

/-- Lookup in a JS record modelled as an association list in key
enumeration order (`record[k]`, `undefined` when the key is absent). -/
def alistLookup {α : Type} : List (String × α) → String → Option α
  | [], _ => none
  | (k, v) :: rest, id => if k = id then some v else alistLookup rest id

/-- The in-memory state of `Storage` (`storage.ts` line 9): the
`accessories` record mapping serial numbers to `OnDisk` entries. -/
structure StorageState where
  accessories : List (String × OnDisk)
deriving Repr, DecidableEq

/-- The backing JSON document at `filePath`.  `none` models a missing or
unparsable file (`readJsonSync(..., \x7b throws: false \x7d)` returning
`null`); `some m` models a document holding the mapping `m`. -/
structure Disk where
  contents : Option (List (String × OnDisk))
deriving Repr, DecidableEq

/-- A `Storage` object together with its backing document, so that the
presence or absence of disk I/O in an operation is visible in its type. -/
structure StorageWorld where
  store : StorageState
  disk : Disk
deriving Repr, DecidableEq

namespace Storage

/-- The constructor of `Storage` (`storage.ts` lines 13-18): read the
backing document; `data ?? \x7b\x7d` initializes an empty mapping when the
file is missing or unparsable. -/
def load (d : Disk) : StorageState :=
  ⟨d.contents.getD []⟩

/-- In-memory part of `Storage.get` (`storage.ts` lines 20-24): if
`accessories[id]` is nullish, set `accessories[id] = \x7b\x7d`; return
`accessories[id]`.  Returns the entry and the updated in-memory state. -/
def get (st : StorageState) (id : String) : OnDisk × StorageState :=
  match alistLookup st.accessories id with
  | some e => (e, st)
  | none => (emptyOnDisk, ⟨st.accessories ++ [(id, emptyOnDisk)]⟩)

/-- The same `Storage.get`, tracked together with the backing document:
the method performs no disk I/O, which the definition exhibits by passing
`w.disk` through unchanged. -/
def getW (w : StorageWorld) (id : String) : OnDisk × StorageWorld :=
  let (e, st) := get w.store id
  (e, ⟨st, w.disk⟩)

/-- In the `Storage.save` method (`storage.ts` lines 26-28),
`writeJsonSync(this.filePath, this.accessories)` serializes the full
in-memory mapping over the backing document.  The JSON encode/decode pair
of `fs-extra` is modelled as the identity on the structured mapping. -/
def save (w : StorageWorld) : StorageWorld :=
  ⟨w.store, ⟨some w.store.accessories⟩⟩

end Storage

/-- Modelled from the spec: a `printf` format string (`helpers.ts` /
node `util.format`), represented as its literal chunks split at the `%s`
placeholders (`slot`). -/
inductive FmtPart where
  | lit : String → FmtPart
  | slot : FmtPart
deriving Repr, DecidableEq

/-- Modelled from the spec: `printf` of `helpers.ts` (node `util.format`
restricted to string arguments, the only use in `platform.ts`): `%s`
placeholders are substituted by arguments in order; arguments left over
once the format is exhausted are appended, each preceded by a space;
placeholders left over once the arguments are exhausted stay literal. -/
def printf : List FmtPart → List String → String
  | [], args => String.join (args.map (fun a => " " ++ a))
  | .lit s :: rest, args => s ++ printf rest args
  | .slot :: rest, [] => "%s" ++ printf rest []
  | .slot :: rest, a :: args => a ++ printf rest args

/-- Modelled from the spec: `JSON.stringify(device, undefined, 2)`
(`platform.ts` line 69) — the serialized form of the declaration, with
`undefined` fields omitted. -/
def serializeField (k : String) (v : Option String) : String :=
  match v with
  | none => ""
  | some s => ",\n  \"" ++ k ++ "\": " ++ s

/-- Modelled from the spec: the serialized form of a `UserConfig`
declaration produced by `JSON.stringify(device, undefined, 2)`. -/
def serializeDevice (d : UserConfig) : String :=
  "\x7b\n  \"ipAddress\": \"" ++ d.ipAddress ++ "\""
    ++ serializeField "mac" (d.mac.map (fun s => "\"" ++ s ++ "\""))
    ++ serializeField "appId" (d.appId.map (fun s => "\"" ++ s ++ "\""))
    ++ serializeField "encKey" (d.encKey.map (fun s => "\"" ++ s ++ "\""))
    ++ serializeField "friendlyName" (d.friendlyName.map (fun s => "\"" ++ s ++ "\""))
    ++ serializeField "disabledAppSupport"
      (d.disabledAppSupport.map (fun b => if b then "true" else "false"))
    ++ "\n\x7d"

/-- Split a character list at a separator character (every occurrence),
keeping empty groups, as node string splitting does. -/
def splitOnChar (sep : Char) : List Char → List (List Char)
  | [] => [[]]
  | c :: rest =>
    if c = sep then [] :: splitOnChar sep rest
    else
      match splitOnChar sep rest with
      | [] => [[c]]
      | g :: gs => (c :: g) :: gs

/-- Modelled from the spec: one dotted group of an IPv4 literal as
`net.isIPv4` accepts it — a nonempty all-digit group denoting a value at
most 255, with no leading zero. -/
def isValidOctet (cs : List Char) : Bool :=
  (!cs.isEmpty) && cs.all Char.isDigit &&
    (cs.foldl (fun n c => n * 10 + (c.toNat - '0'.toNat)) 0 ≤ 255) &&
    (match cs with
     | '0' :: _ :: _ => false
     | _ => true)

/-- Modelled from the spec: `net.isIPv4` — the address is a syntactically
valid IPv4 literal: exactly four dotted all-digit groups, each a value at
most 255 with no leading zero. -/
def isIPv4 (s : String) : Bool :=
  let parts := splitOnChar '.' s.data
  parts.length == 4 && parts.all isValidOctet

/-- Hexadecimal digit test for MAC address groups. -/
def isHexDigit (c : Char) : Bool :=
  c.isDigit || ('a' ≤ c && c ≤ 'f') || ('A' ≤ c && c ≤ 'F')

/-- Modelled from the spec: `isValidMACAddress` of `helpers.ts` — the
string is a syntactically valid MAC address: six colon-separated groups of
two hexadecimal digits. -/
def isValidMACAddress (s : String) : Bool :=
  let parts := splitOnChar ':' s.data
  parts.length == 6 && parts.all (fun p => p.length == 2 && p.all isHexDigit)

/-- Format string of `platform.ts` line 72:
`IGNORING \x27%s\x27 as it is not a valid ip address.\n\n%s`. -/
def invalidIpFmt : List FmtPart :=
  [.lit "IGNORING \x27", .slot, .lit "\x27 as it is not a valid ip address.\n\n", .slot]

/-- Format string of `platform.ts` line 81:
`IGNORING \x27%s\x27 as it has an invalid MAC address: \x27%s\x27\n\n%s`. -/
def invalidMacFmt : List FmtPart :=
  [.lit "IGNORING \x27", .slot, .lit "\x27 as it has an invalid MAC address: \x27",
   .slot, .lit "\x27\n\n", .slot]

/-- Rejection message for an unreachable never-seen device
(`platform.ts` lines 118-123). -/
def unreachableMsg (ip : String) : String :=
  printf
    [.lit "IGNORING \x27", .slot,
     .lit "\x27 as it is not reachable, and we can\x27t relay on cached data"]
    [ip, "as it seems that it was never ever seen and setup before.\n\n",
     "Please make sure that your TV is powered ON and connected to the network."]

/-- Rejection message for offline bootstrap of an encryption-requiring
device (`platform.ts` lines 137-141). -/
def offlineEncMsg (ip : String) : String :=
  printf
    [.lit "IGNORING \x27", .slot, .lit "\x27 as we do not support offline initialization, "]
    [ip, "from cache, for models that require encryption."]

/-- Rendering of a possibly-`undefined` JS string by `util.format` when it
is consumed by the message. -/
def optUndef (o : Option String) : String := o.getD "undefined"

/-- Rejection message for missing credentials on an encryption-requiring
device (`platform.ts` lines 148-153). -/
def credMsg (ip : String) (specs : VieraSpecs) : String :=
  printf
    [.lit "IGNORING \x27", .slot, .lit "\x27 as it is from a Panasonic TV that requires"]
    [ip, "encryption \x27%s\x27 and no valid credentials were supplied.",
     optUndef specs.modelName]

/-- Rejection message for a failed session handshake
(`platform.ts` lines 164-169). -/
def badCredMsg (ip : String) (specs : VieraSpecs) (err : String) : String :=
  printf
    [.lit "IGNORING \x27", .slot, .lit "\x27 (\x27", .slot,
     .lit "\x27) as no working credentials were supplied.\n\n"]
    [ip, optUndef specs.modelName, err]

/-- Rejection message for a first-time device that is not powered on
(`platform.ts` lines 190-194). -/
def notOnMsg (name : Option String) : String :=
  printf
    [.lit "Unable to finish initial setup of ", .slot, .lit ".\n\n"]
    [optUndef name, "Please make sure that this TV is powered ON and NOT in stand-by."]

/-- Rejection message for a failed application-list fetch
(`platform.ts` line 201). -/
def appsMsg (err : String) : String :=
  printf [.lit "unable to fetch Apps list from the TV:\n\n"] [err]

/-- The `deviceSetupPreFlight` method (`platform.ts` lines 68-89): pure,
synchronous validation of one declaration — address must be a valid IPv4
literal; a MAC address, when present, must be syntactically valid; each
failure message embeds the serialized declaration. -/
def deviceSetupPreFlight (device : UserConfig) : Outcome Unit :=
  let raw := serializeDevice device
  if !isIPv4 device.ipAddress then
    .error (printf invalidIpFmt [device.ipAddress, raw])
  else
    match device.mac with
    | some mac =>
      if !isValidMACAddress mac then
        .error (printf invalidMacFmt [device.ipAddress, mac, raw])
      else .value ()
    | none => .value ()

/-- One network call of the device transport, recorded in the trace of a
`deviceSetup` run. -/
inductive NetCall where
  | livenessProbe
  | getSpecs
  | deriveSessionKey
  | requestSessionId
  | isTurnedOn
  | getApps
deriving Repr, DecidableEq

/-- Results of the external device transport for one device: the value
each network call would return if performed.  `deviceSetup` consults a
field only at the point the source awaits the corresponding call, and
records the call in its trace. -/
structure Env where
  reachable : Bool
  liveSpecs : VieraSpecs
  sessionResult : Outcome Unit
  poweredOn : Bool
  appsResult : Outcome (List String)
deriving Repr, DecidableEq

/-- Successful result of `deviceSetup`: the final `tv.specs`, the identity
the constructed accessory was given (`platform.ts` lines 175-179), whether
an encrypted session was established, and the discovered application
list. -/
structure SetupResult where
  specs : VieraSpecs
  accessoryName : Option String
  accessorySerial : Option String
  sessionEstablished : Bool
  apps : List String
deriving Repr, DecidableEq

/-- The friendly-name override of `platform.ts` line 173:
`tv.specs.friendlyName = device.friendlyName ?? tv.specs.friendlyName`. -/
def overrideSpecs (device : UserConfig) (s : VieraSpecs) : VieraSpecs :=
  { s with
    friendlyName :=
      match device.friendlyName with
      | some n => some n
      | none => s.friendlyName }

/-- The record key used at `platform.ts` line 185
(`this.storage.accessories[tv.specs.serialNumber]`): a JS property access
with an `undefined` key coerces the key to the string `undefined`. -/
def serialKey (serial : Option String) : String :=
  serial.getD "undefined"

/-- Successful `deviceSetup` result (`platform.ts` lines 209-211), bound
to the accessory identity constructed at lines 175-179 from the
(name-overridden) specs. -/
def mkSetupResult (device : UserConfig) (tvSpecs : VieraSpecs) (sess : Bool)
    (apps : List String) : Outcome SetupResult :=
  .value ⟨overrideSpecs device tvSpecs, (overrideSpecs device tvSpecs).friendlyName,
          (overrideSpecs device tvSpecs).serialNumber, sess, apps⟩

/-- Lines 173-211 of `platform.ts`: apply the friendly-name override,
construct the accessory identity, and — when the serial number has no
cache entry — run the first-seen bootstrap (powered-on check, then, unless
`disabledAppSupport`, the application-list fetch). -/
def bootstrapStage (st : StorageState) (env : Env) (device : UserConfig)
    (tvSpecs : VieraSpecs) (sess : Bool) (calls : List NetCall) :
    Outcome SetupResult × List NetCall :=
  if st.accessories.isEmpty ||
      (alistLookup st.accessories (serialKey (overrideSpecs device tvSpecs).serialNumber)).isNone then
    if !env.poweredOn then
      (.error (notOnMsg (overrideSpecs device tvSpecs).friendlyName),
       calls ++ [NetCall.isTurnedOn])
    else if device.disabledAppSupport.isNone || !(device.disabledAppSupport.getD false) then
      match env.appsResult with
      | .error m =>
        (.error (appsMsg m), calls ++ [NetCall.isTurnedOn, NetCall.getApps])
      | .value apps =>
        (mkSetupResult device tvSpecs sess apps, calls ++ [NetCall.isTurnedOn, NetCall.getApps])
    else (mkSetupResult device tvSpecs sess [], calls ++ [NetCall.isTurnedOn])
  else (mkSetupResult device tvSpecs sess [], calls)

/-- Lines 146-172 of `platform.ts`: the encryption gate.  When the
resolved specs require encryption, reject unless both credential fields
are present, then derive the session key and perform the
`requestSessionId` handshake, rejecting on handshake failure. -/
def gateStage (st : StorageState) (env : Env) (device : UserConfig)
    (tvSpecs : VieraSpecs) (calls : List NetCall) :
    Outcome SetupResult × List NetCall :=
  if specRequiresEncryption tvSpecs then
    if !(device.appId.isSome && device.encKey.isSome) then
      (.error (credMsg device.ipAddress tvSpecs), calls)
    else
      match env.sessionResult with
      | .error m =>
        (.error (badCredMsg device.ipAddress tvSpecs m),
         calls ++ [NetCall.deriveSessionKey, NetCall.requestSessionId])
      | .value _ =>
        bootstrapStage st env device tvSpecs true
          (calls ++ [NetCall.deriveSessionKey, NetCall.requestSessionId])
  else bootstrapStage st env device tvSpecs false calls

/-- The loop body of `knownWorking` (`platform.ts` lines 94-97): scan the
cache in enumeration order for an entry whose `data.ipAddress` equals the
given address.  An entry whose `data` field is absent makes
`v.data.ipAddress` throw a TypeError, modelled by `none`. -/
def knownWorkingScan : List (String × OnDisk) → String → Option VieraSpecs
  | [], _ => some emptySpecs
  | (_, v) :: rest, ip =>
    match v.data with
    | none => none
    | some d => if d.ipAddress = ip then some d.specs else knownWorkingScan rest ip

/-- The `knownWorking` method (`platform.ts` lines 91-98): empty cache
yields the empty spec set; otherwise the address-based linear scan. -/
def knownWorking (st : StorageState) (ip : String) : Option VieraSpecs :=
  if st.accessories.isEmpty then some emptySpecs
  else knownWorkingScan st.accessories ip

/-- The `deviceSetup` method (`platform.ts` lines 100-212), with the
backing store read-only, the transport results supplied by `env`, and the
network calls performed recorded in the returned trace.  The outer `none`
models an uncaught TypeError thrown by `knownWorking` on a cache entry
with no `data` snapshot; every expected failure is an `Outcome.error`. -/
def deviceSetup (st : StorageState) (env : Env) (device : UserConfig) :
    Option (Outcome SetupResult × List NetCall) :=
  match deviceSetupPreFlight device with
  | .error m => some (.error m, [])
  | .value _ =>
    match knownWorking st device.ipAddress with
    | none => none
    | some cached =>
      if !env.reachable && isEmptySpecs cached then
        some (.error (unreachableMsg device.ipAddress), [NetCall.livenessProbe])
      else if isEmptySpecs env.liveSpecs && specRequiresEncryption cached then
        some (.error (offlineEncMsg device.ipAddress),
              [NetCall.livenessProbe, NetCall.getSpecs])
      else
        some (gateStage st env device
          (if isEmptySpecs env.liveSpecs then cached else env.liveSpecs)
          [NetCall.livenessProbe, NetCall.getSpecs])

/-- What the discovery loop does with one device (`platform.ts` lines
55-65): a failed setup is only logged, a successful one has its accessory
published to the host. -/
inductive DiscoveryEvent where
  | published : Option String → DiscoveryEvent
  | logged : String → DiscoveryEvent
  | crashed : DiscoveryEvent
deriving Repr, DecidableEq

/-- The per-device body of the `discoverDevices` loop. -/
def deviceEvent (st : StorageState) (de : UserConfig × Env) : DiscoveryEvent :=
  match deviceSetup st de.2 de.1 with
  | none => .crashed
  | some (.error m, _) => .logged m
  | some (.value r, _) => .published r.accessoryName

/-- The device loop of `discoverDevices` (`platform.ts` lines 55-65): each
declared device, paired with its own transport environment, is processed
independently by `deviceSetup`. -/
def discoverDevices (st : StorageState) (devices : List (UserConfig × Env)) :
    List DiscoveryEvent :=
  devices.map (deviceEvent st)

/-- Observer: the value of `tv.specs` at the moment `platform.ts` line 146
(the encryption gate) executes — the resolved specs.  `none` when the run
fails, or crashes, before line 146. -/
def resolvedSpecsOf (st : StorageState) (env : Env) (device : UserConfig) :
    Option VieraSpecs :=
  match deviceSetupPreFlight device with
  | .error _ => none
  | .value _ =>
    match knownWorking st device.ipAddress with
    | none => none
    | some cached =>
      if !env.reachable && isEmptySpecs cached then none
      else if isEmptySpecs env.liveSpecs && specRequiresEncryption cached then none
      else some (if isEmptySpecs env.liveSpecs then cached else env.liveSpecs)

/-- Observer: the value of `tv.specs` once `platform.ts` line 172 has been
passed (the encryption gate succeeded, or was skipped), together with
whether an encrypted session was established.  `none` when the run fails,
or crashes, before line 173. -/
def postGateSpecs (st : StorageState) (env : Env) (device : UserConfig) :
    Option (VieraSpecs × Bool) :=
  match resolvedSpecsOf st env device with
  | none => none
  | some rs =>
    if specRequiresEncryption rs then
      if device.appId.isSome && device.encKey.isSome then
        match env.sessionResult with
        | .error _ => none
        | .value _ => some (rs, true)
      else none
    else some (rs, false)

/-- A cache store in which every entry holds a `data` snapshot — the
totality precondition of the `knownWorking` scan. -/
def WFStore (st : StorageState) : Prop :=
  ∀ p ∈ st.accessories, (p.2).data.isSome = true

instance (st : StorageState) : Decidable (WFStore st) := by
  unfold WFStore
  infer_instance

/-- Stated from the claim: the specs of the first entry, in enumeration
order, whose stored `data.ipAddress` equals the address, or the empty spec
set when no entry matches. -/
def firstMatchSpecs : List (String × OnDisk) → String → VieraSpecs
  | [], _ => emptySpecs
  | (_, v) :: rest, ip =>
    match v.data with
    | some d => if d.ipAddress = ip then d.specs else firstMatchSpecs rest ip
    | none => firstMatchSpecs rest ip

/-- The friendly-name override leaves the `requiresEncryption` flag
unchanged. -/
theorem specRequiresEncryption_override (device : UserConfig) (s : VieraSpecs) :
    specRequiresEncryption (overrideSpecs device s) = specRequiresEncryption s := rfl

/-- Shape of a successful `bootstrapStage` run: the result is built by
`mkSetupResult` from the name-overridden specs, and the trace only grows
by bootstrap calls. -/
theorem bootstrapStage_value (st : StorageState) (env : Env) (device : UserConfig)
    (ts : VieraSpecs) (sess : Bool) (calls calls' : List NetCall) (r : SetupResult)
    (h : bootstrapStage st env device ts sess calls = (.value r, calls')) :
    r.specs = overrideSpecs device ts ∧ r.sessionEstablished = sess ∧
      r.accessoryName = (overrideSpecs device ts).friendlyName ∧
      r.accessorySerial = (overrideSpecs device ts).serialNumber ∧
      ∃ extra, calls' = calls ++ extra := by
  unfold bootstrapStage at h
  split at h
  · split at h
    · exact absurd h (by simp)
    · split at h
      · split at h
        · exact absurd h (by simp)
        · simp only [mkSetupResult, Prod.mk.injEq, Outcome.value.injEq] at h
          obtain ⟨hr, hc⟩ := h
          subst hr
          exact ⟨rfl, rfl, rfl, rfl, _, hc.symm⟩
      · simp only [mkSetupResult, Prod.mk.injEq, Outcome.value.injEq] at h
        obtain ⟨hr, hc⟩ := h
        subst hr
        exact ⟨rfl, rfl, rfl, rfl, _, hc.symm⟩
  · simp only [mkSetupResult, Prod.mk.injEq, Outcome.value.injEq] at h
    obtain ⟨hr, hc⟩ := h
    subst hr
    exact ⟨rfl, rfl, rfl, rfl, [], by simp [hc.symm]⟩

/-- Case analysis of a successful `gateStage` run: either the specs did
not require encryption and the bootstrap ran directly, or they did, both
credentials were present, the handshake succeeded, and the bootstrap ran
with the session flag set and the session calls in the trace. -/
theorem gateStage_value (st : StorageState) (env : Env) (device : UserConfig)
    (ts : VieraSpecs) (calls calls' : List NetCall) (r : SetupResult)
    (h : gateStage st env device ts calls = (.value r, calls')) :
    (specRequiresEncryption ts = false ∧
      bootstrapStage st env device ts false calls = (.value r, calls'))
    ∨ (specRequiresEncryption ts = true ∧ device.appId.isSome = true ∧
        device.encKey.isSome = true ∧ env.sessionResult = .value () ∧
        bootstrapStage st env device ts true
          (calls ++ [NetCall.deriveSessionKey, NetCall.requestSessionId]) =
          (.value r, calls')) := by
  unfold gateStage at h
  split at h
  · rename_i henc
    split at h
    · exact absurd h (by simp)
    · rename_i hcred
      simp only [Bool.not_eq_true', Bool.not_eq_false] at hcred
      simp only [Bool.and_eq_true] at hcred
      split at h
      · exact absurd h (by simp)
      · rename_i u hsess
        right
        exact ⟨henc, hcred.1, hcred.2, by rw [hsess], h⟩
  · rename_i henc
    simp only [Bool.not_eq_true] at henc
    left
    exact ⟨by simpa using henc, h⟩

/-- Bridge: when resolution completes (the run reaches line 146 of
`platform.ts`), `deviceSetup` is the encryption gate applied to the
resolved specs, with the probe and the specs fetch already in the
trace. -/
theorem deviceSetup_eq_gateStage (st : StorageState) (env : Env) (device : UserConfig)
    (rs : VieraSpecs) (h : resolvedSpecsOf st env device = some rs) :
    deviceSetup st env device =
      some (gateStage st env device rs [NetCall.livenessProbe, NetCall.getSpecs]) := by
  unfold resolvedSpecsOf at h
  unfold deviceSetup
  split at h
  · exact absurd h (by simp)
  · rename_i u hpf
    split at h
    · exact absurd h (by simp)
    · rename_i cached hkw
      split at h
      · exact absurd h (by simp)
      · rename_i hng
        rw [if_neg hng]
        split at h
        · exact absurd h (by simp)
        · rename_i henc
          rw [if_neg henc]
          simp only [Option.some.injEq] at h
          rw [h]

/-- Converse bridge: a successful `deviceSetup` run went through
resolution and then the encryption gate. -/
theorem deviceSetup_value_resolved (st : StorageState) (env : Env) (device : UserConfig)
    (r : SetupResult) (calls : List NetCall)
    (h : deviceSetup st env device = some (.value r, calls)) :
    ∃ rs, resolvedSpecsOf st env device = some rs ∧
      gateStage st env device rs [NetCall.livenessProbe, NetCall.getSpecs] =
        (.value r, calls) := by
  unfold deviceSetup at h
  unfold resolvedSpecsOf
  split at h
  · exact absurd h (by simp)
  · split at h
    · exact absurd h (by simp)
    · rename_i cached hkw
      split at h
      · exact absurd h (by simp)
      · rename_i hng
        rw [if_neg hng]
        split at h
        · exact absurd h (by simp)
        · rename_i henc
          rw [if_neg henc]
          refine ⟨_, rfl, ?_⟩
          simpa using h

/-- C1: for every device, `setupDevice` completes successfully with
resolved specs having `requiresEncryption = true` only if the declaration
supplied both credential fields (`appId` and `encKey`) and the session
handshake (`requestSessionId`) returned success; a success outcome with an
encryption-requiring spec but no established session is impossible. -/
theorem claim_C1 (st : StorageState) (env : Env) (device : UserConfig)
    (r : SetupResult) (calls : List NetCall)
    (h : deviceSetup st env device = some (.value r, calls))
    (henc : specRequiresEncryption r.specs = true) :
    device.appId.isSome = true ∧ device.encKey.isSome = true ∧
      env.sessionResult = .value () ∧ r.sessionEstablished = true ∧
      NetCall.requestSessionId ∈ calls := by
  obtain ⟨rs, hres, hgate⟩ := deviceSetup_value_resolved st env device r calls h
  rcases gateStage_value st env device rs _ _ r hgate with
    ⟨hfalse, hboot⟩ | ⟨htrue, ha, hk, hs, hboot⟩
  · obtain ⟨hspecs, -, -, -, -⟩ := bootstrapStage_value _ _ _ _ _ _ _ _ hboot
    rw [hspecs, specRequiresEncryption_override] at henc
    rw [henc] at hfalse
    simp at hfalse
  · obtain ⟨hspecs, hsess, -, -, extra, hcalls⟩ := bootstrapStage_value _ _ _ _ _ _ _ _ hboot
    refine ⟨ha, hk, hs, hsess, ?_⟩
    rw [hcalls]
    simp

/-- Concrete inputs for the C1 witness: an encryption-requiring TV with
both credentials present and a successful handshake. -/
def devC1 : UserConfig :=
  { ipAddress := "10.0.0.5", appId := some "appid", encKey := some "enckey" }

/-- Live specs of the C1 witness device. -/
def specsC1 : VieraSpecs :=
  { friendlyName := some "tv", modelName := some "TX-40", serialNumber := some "SER1",
    requiresEncryption := some true }

/-- Transport environment of the C1 witness device. -/
def envC1 : Env :=
  { reachable := true, liveSpecs := specsC1, sessionResult := .value (),
    poweredOn := true, appsResult := .value ["Netflix", "YouTube"] }

/-- Result of the C1 witness run. -/
def resC1 : SetupResult :=
  { specs := specsC1, accessoryName := some "tv", accessorySerial := some "SER1",
    sessionEstablished := true, apps := ["Netflix", "YouTube"] }

/-- Trace of the C1 witness run. -/
def callsC1 : List NetCall :=
  [NetCall.livenessProbe, NetCall.getSpecs, NetCall.deriveSessionKey,
   NetCall.requestSessionId, NetCall.isTurnedOn, NetCall.getApps]

/-- Witness for C1 at a concrete encryption-requiring device. -/
theorem claim_C1_witness :
    devC1.appId.isSome = true ∧ devC1.encKey.isSome = true ∧
      envC1.sessionResult = .value () ∧ resC1.sessionEstablished = true ∧
      NetCall.requestSessionId ∈ callsC1 :=
  claim_C1 ⟨[]⟩ envC1 devC1 resC1 callsC1 (by decide) (by decide)

/-- The unreachable-device rejection message embeds the advice to check
power and network state. -/
theorem unreachableMsg_has_advice (ip : String) :
    ∃ a b, unreachableMsg ip =
      a ++ ("Please make sure that your TV is powered ON and connected to the network." ++ b) := by
  refine ⟨"IGNORING \x27" ++ (ip ++
    ("\x27 as it is not reachable, and we can\x27t relay on cached data" ++
      (" " ++ ("as it seems that it was never ever seen and setup before.\n\n" ++ " ")))),
    "", ?_⟩
  simp [unreachableMsg, printf, String.join, String.append_assoc,
    String.append_empty, String.empty_append]

/-- C2: for every device (with a valid declaration and a completed cache
scan), specs resolution follows this case analysis: if the liveness probe
reports unreachable and the address-based cache scan yields no specs,
setup fails with a message telling the operator to check power and
network; if the live specs fetch yields empty data, the cached specs are
used instead unless those cached specs have `requiresEncryption = true`,
in which case setup fails; if the live fetch yields non-empty specs, those
live specs are used regardless of what the cache holds. -/
theorem claim_C2 (st : StorageState) (env : Env) (device : UserConfig)
    (cached : VieraSpecs)
    (hpre : deviceSetupPreFlight device = .value ())
    (hc : knownWorking st device.ipAddress = some cached) :
    ((!env.reachable && isEmptySpecs cached) = true →
        deviceSetup st env device =
          some (.error (unreachableMsg device.ipAddress), [NetCall.livenessProbe]) ∧
        ∃ a b, unreachableMsg device.ipAddress =
          a ++ ("Please make sure that your TV is powered ON and connected to the network." ++ b))
    ∧ ((!env.reachable && isEmptySpecs cached) = false →
        isEmptySpecs env.liveSpecs = true →
        (specRequiresEncryption cached = true →
          deviceSetup st env device =
            some (.error (offlineEncMsg device.ipAddress),
                  [NetCall.livenessProbe, NetCall.getSpecs])) ∧
        (specRequiresEncryption cached = false →
          resolvedSpecsOf st env device = some cached))
    ∧ ((!env.reachable && isEmptySpecs cached) = false →
        isEmptySpecs env.liveSpecs = false →
        resolvedSpecsOf st env device = some env.liveSpecs) := by
  refine ⟨?_, ?_, ?_⟩
  · intro hcond
    exact ⟨by simp [deviceSetup, hpre, hc, hcond],
           unreachableMsg_has_advice device.ipAddress⟩
  · intro hcond hlive
    constructor
    · intro hreq
      simp [deviceSetup, hpre, hc, hcond, hlive, hreq]
    · intro hreq
      simp [resolvedSpecsOf, hpre, hc, hcond, hlive, hreq]
  · intro hcond hlive
    simp [resolvedSpecsOf, hpre, hc, hcond, hlive]

/-- Concrete declaration for the C2 witness: device `10.0.0.6`, no MAC. -/
def devC2 : UserConfig := { ipAddress := "10.0.0.6" }

/-- Transport environment of the C2 witness: unreachable device. -/
def envC2 : Env :=
  { reachable := false, liveSpecs := emptySpecs, sessionResult := .error "offline",
    poweredOn := false, appsResult := .error "offline" }

/-- Witness for C2 at the unreachable-and-never-seen device `10.0.0.6`. -/
theorem claim_C2_witness :
    deviceSetup ⟨[]⟩ envC2 devC2 =
      some (.error (unreachableMsg "10.0.0.6"), [NetCall.livenessProbe]) :=
  ((claim_C2 ⟨[]⟩ envC2 devC2 emptySpecs (by decide) (by decide)).1 (by decide)).1

/-- Concrete declaration for C3: an encryption-requiring device with a
friendly-name override. -/
def devC3 : UserConfig :=
  { ipAddress := "10.0.0.9", appId := some "appid", encKey := some "enckey",
    friendlyName := some "Livingroom" }

/-- Live specs of the C3 device: original friendly name `tv`. -/
def specsC3 : VieraSpecs :=
  { friendlyName := some "tv", modelName := some "TX-50", serialNumber := some "SER3",
    requiresEncryption := some true }

/-- Transport environment of the C3 device: reachable, handshake
succeeds, powered on, empty app list. -/
def envC3 : Env :=
  { reachable := true, liveSpecs := specsC3, sessionResult := .value (),
    poweredOn := true, appsResult := .value [] }

/-- Empty cache store for the C3 scenario. -/
def stC3 : StorageState := ⟨[]⟩

/-- Result of the C3 run. -/
def resC3 : SetupResult :=
  { specs := { friendlyName := some "Livingroom", modelName := some "TX-50",
               serialNumber := some "SER3", requiresEncryption := some true },
    accessoryName := some "Livingroom", accessorySerial := some "SER3",
    sessionEstablished := true, apps := [] }

/-- Trace of the C3 run. -/
def callsC3 : List NetCall :=
  [NetCall.livenessProbe, NetCall.getSpecs, NetCall.deriveSessionKey,
   NetCall.requestSessionId, NetCall.isTurnedOn, NetCall.getApps]

/-- C3 counterexample: the claim says the friendly-name override is
applied before the encryption gate runs, so that the gate observes specs
already carrying the overridden name.  At this concrete input the gate
runs (the run succeeds and establishes a session), yet the specs in force
when line 146 of `platform.ts` executes (`resolvedSpecsOf`) still carry
the original name `tv`, not the override `Livingroom`: in the source the
override (line 173) sits after the gate (lines 146-172). -/
theorem claim_C3_counterexample :
    devC3.friendlyName = some "Livingroom" ∧
    resolvedSpecsOf stC3 envC3 devC3 = some specsC3 ∧
    specsC3.friendlyName = some "tv" ∧
    specsC3.friendlyName ≠ devC3.friendlyName ∧
    deviceSetup stC3 envC3 devC3 = some (.value resC3, callsC3) ∧
    resC3.accessoryName = some "Livingroom" := by
  decide

/-- C3 (amended): the friendly-name override is applied after the
encryption gate, not before it — the gate observes the resolved specs
with their original friendly name — and before accessory construction,
so the constructed accessory does carry the overridden name. -/
theorem claim_C3_amended (st : StorageState) (env : Env) (device : UserConfig)
    (rs : VieraSpecs) (h : resolvedSpecsOf st env device = some rs) :
    deviceSetup st env device =
      some (gateStage st env device rs [NetCall.livenessProbe, NetCall.getSpecs]) ∧
    ∀ r calls, deviceSetup st env device = some (.value r, calls) →
      r.specs = overrideSpecs device rs ∧
      r.accessoryName = (overrideSpecs device rs).friendlyName ∧
      (∀ n, device.friendlyName = some n → r.accessoryName = some n) := by
  refine ⟨deviceSetup_eq_gateStage st env device rs h, ?_⟩
  intro r calls hds
  obtain ⟨rs', hres', hgate⟩ := deviceSetup_value_resolved st env device r calls hds
  rw [h] at hres'
  obtain rfl := Option.some.inj hres'
  rcases gateStage_value st env device rs _ _ r hgate with
    ⟨-, hboot⟩ | ⟨-, -, -, -, hboot⟩
  · obtain ⟨hspecs, -, hname, -, -⟩ := bootstrapStage_value _ _ _ _ _ _ _ _ hboot
    refine ⟨hspecs, hname, ?_⟩
    intro n hn
    rw [hname]
    simp [overrideSpecs, hn]
  · obtain ⟨hspecs, -, hname, -, -⟩ := bootstrapStage_value _ _ _ _ _ _ _ _ hboot
    refine ⟨hspecs, hname, ?_⟩
    intro n hn
    rw [hname]
    simp [overrideSpecs, hn]

/-- Witness for the amended C3 at the concrete C3 scenario. -/
theorem claim_C3_amended_witness :
    resC3.specs = overrideSpecs devC3 specsC3 ∧
    resC3.accessoryName = (overrideSpecs devC3 specsC3).friendlyName ∧
    (∀ n, devC3.friendlyName = some n → resC3.accessoryName = some n) :=
  (claim_C3_amended stC3 envC3 devC3 specsC3 (by decide)).2 resC3 callsC3 (by decide)

/-- C4: for every device declaration whose address is not a syntactically
valid IPv4 literal, or whose hardware address is present but not a
syntactically valid MAC address, validation fails with a message embedding
the serialized declaration, and `deviceSetup` returns that failure with an
empty network-call trace — the liveness probe and every other network call
are never invoked. -/
theorem claim_C4 (st : StorageState) (env : Env) (device : UserConfig)
    (h : isIPv4 device.ipAddress = false ∨
         ∃ m, device.mac = some m ∧ isValidMACAddress m = false) :
    ∃ msg, deviceSetupPreFlight device = .error msg ∧
      (∃ a, msg = a ++ serializeDevice device) ∧
      deviceSetup st env device = some (.error msg, []) := by
  by_cases hip : isIPv4 device.ipAddress = false
  · have hpf : deviceSetupPreFlight device =
        .error (printf invalidIpFmt [device.ipAddress, serializeDevice device]) := by
      simp [deviceSetupPreFlight, hip]
    refine ⟨_, hpf, ?_, by simp [deviceSetup, hpf]⟩
    refine ⟨"IGNORING \x27" ++
      (device.ipAddress ++ "\x27 as it is not a valid ip address.\n\n"), ?_⟩
    simp [printf, invalidIpFmt, String.join, String.append_assoc,
      String.append_empty, String.empty_append]
  · rw [Bool.not_eq_false] at hip
    rcases h with hip' | ⟨m, hm, hmac⟩
    · rw [hip'] at hip
      exact absurd hip (by simp)
    · have hpf : deviceSetupPreFlight device =
          .error (printf invalidMacFmt [device.ipAddress, m, serializeDevice device]) := by
        simp [deviceSetupPreFlight, hip, hm, hmac]
      refine ⟨_, hpf, ?_, by simp [deviceSetup, hpf]⟩
      refine ⟨"IGNORING \x27" ++
        (device.ipAddress ++ ("\x27 as it has an invalid MAC address: \x27" ++
          (m ++ "\x27\n\n"))), ?_⟩
      simp [printf, invalidMacFmt, String.join, String.append_assoc,
        String.append_empty, String.empty_append]

/-- Concrete declaration for the C4 witness: malformed address. -/
def devC4 : UserConfig := { ipAddress := "999.0.0.1" }

/-- Witness for C4 at the malformed address `999.0.0.1`. -/
theorem claim_C4_witness :
    ∃ msg, deviceSetupPreFlight devC4 = .error msg ∧
      (∃ a, msg = a ++ serializeDevice devC4) ∧
      deviceSetup ⟨[]⟩ envC2 devC4 = some (.error msg, []) :=
  claim_C4 ⟨[]⟩ envC2 devC4 (Or.inl (by decide))

/-- C5: for every device whose resolved specs have
`requiresEncryption = true` and whose declaration lacks `appId` or lacks
`encKey`, `deviceSetup` fails at the credential check, and neither
session-key derivation nor the handshake (`requestSessionId`) is ever
attempted — the trace holds only the probe and the specs fetch. -/
theorem claim_C5 (st : StorageState) (env : Env) (device : UserConfig)
    (rs : VieraSpecs)
    (hres : resolvedSpecsOf st env device = some rs)
    (henc : specRequiresEncryption rs = true)
    (hcred : device.appId = none ∨ device.encKey = none) :
    deviceSetup st env device =
      some (.error (credMsg device.ipAddress rs),
            [NetCall.livenessProbe, NetCall.getSpecs]) ∧
    NetCall.deriveSessionKey ∉ [NetCall.livenessProbe, NetCall.getSpecs] ∧
    NetCall.requestSessionId ∉ [NetCall.livenessProbe, NetCall.getSpecs] := by
  have hb := deviceSetup_eq_gateStage st env device rs hres
  have hcond : (device.appId.isSome && device.encKey.isSome) = false := by
    rcases hcred with h | h <;> simp [h]
  refine ⟨?_, by decide, by decide⟩
  rw [hb]
  simp [gateStage, henc, hcond]

/-- Concrete declaration for the C5 witness: device `10.0.0.7`, `encKey`
omitted. -/
def devC5 : UserConfig := { ipAddress := "10.0.0.7", appId := some "appid" }

/-- Live specs of the C5 witness device: encryption required. -/
def specsC5 : VieraSpecs :=
  { friendlyName := some "tv", modelName := some "TX-42", serialNumber := some "SER5",
    requiresEncryption := some true }

/-- Transport environment of the C5 witness device. -/
def envC5 : Env :=
  { reachable := true, liveSpecs := specsC5, sessionResult := .error "unused",
    poweredOn := true, appsResult := .error "unused" }

/-- Witness for C5 at the concrete device `10.0.0.7` with missing
`encKey`. -/
theorem claim_C5_witness :
    deviceSetup ⟨[]⟩ envC5 devC5 =
      some (.error (credMsg "10.0.0.7" specsC5),
            [NetCall.livenessProbe, NetCall.getSpecs]) ∧
    NetCall.deriveSessionKey ∉ [NetCall.livenessProbe, NetCall.getSpecs] ∧
    NetCall.requestSessionId ∉ [NetCall.livenessProbe, NetCall.getSpecs] :=
  claim_C5 ⟨[]⟩ envC5 devC5 specsC5 (by decide) (by decide) (Or.inr rfl)

/-- Bridge: when the run passes the encryption gate (reaches line 173 of
`platform.ts`), `deviceSetup` is the bootstrap stage applied to the
post-gate specs, with the session calls in the trace exactly when the
encryption path ran. -/
theorem deviceSetup_eq_bootstrapStage (st : StorageState) (env : Env)
    (device : UserConfig) (rs : VieraSpecs) (sess : Bool)
    (h : postGateSpecs st env device = some (rs, sess)) :
    deviceSetup st env device =
      some (bootstrapStage st env device rs sess
        (if sess then
          [NetCall.livenessProbe, NetCall.getSpecs, NetCall.deriveSessionKey,
           NetCall.requestSessionId]
         else [NetCall.livenessProbe, NetCall.getSpecs])) := by
  unfold postGateSpecs at h
  split at h
  · exact absurd h (by simp)
  · rename_i rs' hres
    rw [deviceSetup_eq_gateStage st env device rs' hres]
    split at h
    · rename_i henc
      split at h
      · rename_i hcred
        split at h
        · exact absurd h (by simp)
        · rename_i u hsess
          simp only [Option.some.injEq, Prod.mk.injEq] at h
          obtain ⟨rfl, rfl⟩ := h
          simp [gateStage, henc, hcred, hsess]
      · exact absurd h (by simp)
    · rename_i henc
      simp only [Option.some.injEq, Prod.mk.injEq] at h
      obtain ⟨rfl, rfl⟩ := h
      simp [gateStage, henc]

/-- C6: for every device that passed the encryption gate, if the serial
number has no entry in the cache store (first-ever setup), `deviceSetup`
fails when the device does not report itself powered on; otherwise,
unless application-list discovery is explicitly disabled in the
declaration, the application list is fetched and any fetch failure is a
hard rejection for that device; for a device whose serial number already
has a cache entry, neither the powered-on check nor the application fetch
occurs. -/
theorem claim_C6 (st : StorageState) (env : Env) (device : UserConfig)
    (rs : VieraSpecs) (sess : Bool)
    (h : postGateSpecs st env device = some (rs, sess)) :
    (alistLookup st.accessories
        (serialKey (overrideSpecs device rs).serialNumber) = none →
      (env.poweredOn = false →
        ∃ calls, deviceSetup st env device =
            some (.error (notOnMsg (overrideSpecs device rs).friendlyName), calls) ∧
          NetCall.isTurnedOn ∈ calls ∧ NetCall.getApps ∉ calls) ∧
      (env.poweredOn = true → device.disabledAppSupport ≠ some true →
        (∀ m, env.appsResult = .error m →
          ∃ calls, deviceSetup st env device = some (.error (appsMsg m), calls) ∧
            NetCall.getApps ∈ calls) ∧
        (∀ apps, env.appsResult = .value apps →
          ∃ r calls, deviceSetup st env device = some (.value r, calls) ∧
            r.apps = apps ∧ NetCall.getApps ∈ calls)))
    ∧ (∀ e, alistLookup st.accessories
          (serialKey (overrideSpecs device rs).serialNumber) = some e →
        ∃ r calls, deviceSetup st env device = some (.value r, calls) ∧
          r.apps = [] ∧ NetCall.isTurnedOn ∉ calls ∧ NetCall.getApps ∉ calls) := by
  have hb := deviceSetup_eq_bootstrapStage st env device rs sess h
  constructor
  · intro hlook
    have hcond : (st.accessories.isEmpty ||
        (alistLookup st.accessories
          (serialKey (overrideSpecs device rs).serialNumber)).isNone) = true := by
      simp [hlook]
    constructor
    · intro hpow
      refine ⟨(if sess then
          [NetCall.livenessProbe, NetCall.getSpecs, NetCall.deriveSessionKey,
           NetCall.requestSessionId]
         else [NetCall.livenessProbe, NetCall.getSpecs]) ++ [NetCall.isTurnedOn],
        ?_, ?_, ?_⟩
      · rw [hb]
        simp [bootstrapStage, hcond, hpow]
      · cases sess <;> decide
      · cases sess <;> decide
    · intro hpow hdis
      have hdcond : (device.disabledAppSupport.isNone ||
          !(device.disabledAppSupport.getD false)) = true := by
        cases hd : device.disabledAppSupport with
        | none => simp
        | some b =>
          cases b
          · simp
          · exact absurd hd hdis
      constructor
      · intro m hm
        refine ⟨(if sess then
            [NetCall.livenessProbe, NetCall.getSpecs, NetCall.deriveSessionKey,
             NetCall.requestSessionId]
           else [NetCall.livenessProbe, NetCall.getSpecs]) ++
            [NetCall.isTurnedOn, NetCall.getApps], ?_, ?_⟩
        · rw [hb]
          simp [bootstrapStage, hcond, hpow, hdcond, hm]
        · cases sess <;> decide
      · intro apps happ
        refine ⟨⟨overrideSpecs device rs, (overrideSpecs device rs).friendlyName,
            (overrideSpecs device rs).serialNumber, sess, apps⟩,
          (if sess then
            [NetCall.livenessProbe, NetCall.getSpecs, NetCall.deriveSessionKey,
             NetCall.requestSessionId]
           else [NetCall.livenessProbe, NetCall.getSpecs]) ++
            [NetCall.isTurnedOn, NetCall.getApps], ?_, rfl, ?_⟩
        · rw [hb]
          simp [bootstrapStage, mkSetupResult, hcond, hpow, hdcond, happ]
        · cases sess <;> decide
  · intro e he
    have hne : st.accessories.isEmpty = false := by
      cases hacc : st.accessories with
      | nil => rw [hacc] at he; exact absurd he (by simp [alistLookup])
      | cons a as => simp
    have hcond : (st.accessories.isEmpty ||
        (alistLookup st.accessories
          (serialKey (overrideSpecs device rs).serialNumber)).isNone) = false := by
      simp [hne, he]
    refine ⟨⟨overrideSpecs device rs, (overrideSpecs device rs).friendlyName,
        (overrideSpecs device rs).serialNumber, sess, []⟩,
      (if sess then
        [NetCall.livenessProbe, NetCall.getSpecs, NetCall.deriveSessionKey,
         NetCall.requestSessionId]
       else [NetCall.livenessProbe, NetCall.getSpecs]), ?_, rfl, ?_, ?_⟩
    · rw [hb]
      simp [bootstrapStage, mkSetupResult, hcond]
    · cases sess <;> decide
    · cases sess <;> decide

/-- Concrete declaration for the C6 witness: device `10.0.0.5`, no MAC,
app discovery enabled. -/
def devC6 : UserConfig := { ipAddress := "10.0.0.5" }

/-- Live specs of the C6 witness device: no encryption required. -/
def specsC6 : VieraSpecs :=
  { friendlyName := some "tv", modelName := some "TX-40", serialNumber := some "SER6",
    requiresEncryption := some false }

/-- Transport environment of the C6 witness device: reachable, powered
on, two apps discovered. -/
def envC6 : Env :=
  { reachable := true, liveSpecs := specsC6, sessionResult := .error "unused",
    poweredOn := true, appsResult := .value ["Netflix", "YouTube"] }

/-- Witness for C6: first-ever setup of `10.0.0.5`, powered on, app
discovery enabled — the setup succeeds carrying both apps, and the app
fetch occurred. -/
theorem claim_C6_witness :
    ∃ r calls, deviceSetup ⟨[]⟩ envC6 devC6 = some (.value r, calls) ∧
      r.apps = ["Netflix", "YouTube"] ∧ NetCall.getApps ∈ calls :=
  (((claim_C6 ⟨[]⟩ envC6 devC6 specsC6 false (by decide)).1 (by decide)).2
    (by decide) (by decide)).2 ["Netflix", "YouTube"] (by decide)

/-- C7: for every configured device list, the discovery cycle runs
`deviceSetup` for each device independently: the event at every position
is fully determined by that position's device alone, a successful setup
yields a published accessory, and a failed setup yields only a logged
message — so one device's failure never prevents or aborts the setup and
publication of any other device. -/
theorem claim_C7 (st : StorageState) (devices : List (UserConfig × Env))
    (i : Nat) (d : UserConfig × Env) (hd : devices[i]? = some d) :
    (discoverDevices st devices).length = devices.length ∧
    (discoverDevices st devices)[i]? = some (deviceEvent st d) ∧
    (∀ r calls, deviceSetup st d.2 d.1 = some (.value r, calls) →
      deviceEvent st d = .published r.accessoryName) ∧
    (∀ m calls, deviceSetup st d.2 d.1 = some (.error m, calls) →
      deviceEvent st d = .logged m) := by
  refine ⟨by simp [discoverDevices], ?_, ?_, ?_⟩
  · simp [discoverDevices, hd]
  · intro r calls hds
    simp [deviceEvent, hds]
  · intro m calls hds
    simp [deviceEvent, hds]

/-- Concrete invalid declaration for the C7 witness. -/
def devBadC7 : UserConfig := { ipAddress := "not-an-ip" }

/-- Witness for C7: a discovery cycle over an invalid device followed by
a valid reachable one still produces, at position 1, exactly the valid
device's own event. -/
theorem claim_C7_witness :
    (discoverDevices ⟨[]⟩ [(devBadC7, envC2), (devC6, envC6)])[1]? =
      some (deviceEvent ⟨[]⟩ (devC6, envC6)) :=
  (claim_C7 ⟨[]⟩ [(devBadC7, envC2), (devC6, envC6)] 1 (devC6, envC6) (by decide)).2.1

/-- Appending a fresh binding behind a mapping that lacks the key makes
lookup of that key find the fresh binding. -/
theorem alistLookup_append_self {α : Type} (l : List (String × α)) (id : String)
    (v : α) (h : alistLookup l id = none) :
    alistLookup (l ++ [(id, v)]) id = some v := by
  induction l with
  | nil => simp [alistLookup]
  | cons p rest ih =>
    obtain ⟨k, w⟩ := p
    rw [List.cons_append]
    unfold alistLookup at h ⊢
    split at h
    · exact absurd h (by simp)
    · rename_i hne
      rw [if_neg hne]
      exact ih h

/-- C8: for every key `id`, `Storage.get id` returns a non-`null` entry:
when `id` is absent from the in-memory mapping, an empty entry is created
and stored in memory before being returned, and this materialization
performs no disk I/O — the backing document is unchanged (it only changes
when `save` is explicitly called). -/
theorem claim_C8 (w : StorageWorld) (id : String) :
    (Storage.getW w id).2.disk = w.disk ∧
    (alistLookup w.store.accessories id = none →
      (Storage.getW w id).1 = emptyOnDisk ∧
      alistLookup (Storage.getW w id).2.store.accessories id = some emptyOnDisk) ∧
    (∀ e, alistLookup w.store.accessories id = some e →
      (Storage.getW w id).1 = e ∧ (Storage.getW w id).2 = w) := by
  refine ⟨rfl, ?_, ?_⟩
  · intro hnone
    constructor
    · simp [Storage.getW, Storage.get, hnone]
    · simp only [Storage.getW, Storage.get, hnone]
      exact alistLookup_append_self _ _ _ hnone
  · intro e he
    constructor
    · simp [Storage.getW, Storage.get, he]
    · simp [Storage.getW, Storage.get, he]

/-- C9: calling `save` and then constructing a fresh `Storage` over the
same backing path yields a store whose mapping contains every entry of the
saved in-memory mapping unchanged — save followed by load is the identity
on the mapping. -/
theorem claim_C9 (w : StorageWorld) :
    (Storage.load (Storage.save w).disk).accessories = w.store.accessories := rfl

/-- The scan of `knownWorking`, on a mapping whose entries all hold a
`data` snapshot, is total and computes the first-match specs. -/
theorem knownWorkingScan_eq (l : List (String × OnDisk)) (ip : String)
    (h : ∀ p ∈ l, (p.2).data.isSome = true) :
    knownWorkingScan l ip = some (firstMatchSpecs l ip) := by
  induction l with
  | nil => rfl
  | cons p rest ih =>
    obtain ⟨k, v⟩ := p
    have hv := h (k, v) (by simp)
    cases hd : v.data with
    | none => rw [hd] at hv; simp at hv
    | some d =>
      by_cases hip : d.ipAddress = ip
      · simp [knownWorkingScan, firstMatchSpecs, hd, hip]
      · simp only [knownWorkingScan, firstMatchSpecs, hd, if_neg hip]
        exact ih (fun q hq => h q (List.mem_cons_of_mem _ hq))

/-- C10: for every cache store in which every entry contains a `data`
snapshot, `knownWorking ip` is total (no TypeError) and returns the specs
of the first entry, in the mapping's enumeration order, whose stored
`data.ipAddress` equals `ip`, or an empty spec set when no entry
matches. -/
theorem claim_C10 (st : StorageState) (ip : String) (hwf : WFStore st) :
    knownWorking st ip = some (firstMatchSpecs st.accessories ip) := by
  unfold knownWorking
  split
  · rename_i hemp
    have hacc : st.accessories = [] := by simpa using hemp
    rw [hacc]
    rfl
  · exact knownWorkingScan_eq st.accessories ip hwf

/-- Cache entry for the C8 witness: its `data` snapshot holds address
`10.0.0.3` and specs named `den` with serial `SER8`. -/
def entryC8 : OnDisk :=
  ⟨some ⟨"10.0.0.3", ⟨some "den", none, some "SER8", none⟩⟩, some ["Netflix"]⟩

/-- Storage world for the C8 witness: one known serial number. -/
def wC8 : StorageWorld :=
  { store := ⟨[("SER8", entryC8)]⟩, disk := ⟨some [("SER8", entryC8)]⟩ }

/-- Witness for C8 at a concrete store and an unknown key. -/
theorem claim_C8_witness :
    (Storage.getW wC8 "UNKNOWN").2.disk = wC8.disk ∧
    ((Storage.getW wC8 "UNKNOWN").1 = emptyOnDisk ∧
      alistLookup (Storage.getW wC8 "UNKNOWN").2.store.accessories "UNKNOWN" =
        some emptyOnDisk) :=
  ⟨(claim_C8 wC8 "UNKNOWN").1, (claim_C8 wC8 "UNKNOWN").2.1 (by decide)⟩

/-- Cache store for the C10 witness: two entries, both holding a `data`
snapshot. -/
def stC10 : StorageState :=
  ⟨[("S1", ⟨some ⟨"10.0.0.1", ⟨some "a", none, none, none⟩⟩, none⟩),
    ("S2", ⟨some ⟨"10.0.0.2", ⟨some "b", none, none, some true⟩⟩, none⟩)]⟩

/-- Witness for C10 at a concrete well-formed store. -/
theorem claim_C10_witness :
    knownWorking stC10 "10.0.0.2" =
      some (firstMatchSpecs stC10.accessories "10.0.0.2") :=
  claim_C10 stC10 "10.0.0.2" (by decide)
